import Mathlib

/-!
# Verification of the AI-Investor license tracker (`src/license_tracker.py`)

Shallow embedding of the license lifecycle engine: credential hashing,
admin authentication, issuance, verification, activation and revocation for
commercial and regular licenses.

Modelling conventions:
* Timestamps are `Int` (seconds); `datetime.now()` becomes an explicit `now`
  argument; `timedelta(days=d)` becomes `addDays`.
* The SHA-256 hex digest primitive (`hashlib.sha256(...).hexdigest()`, an
  external library function) is an abstract parameter `H : String → String`
  applied to the concatenation `password + salt`, exactly as the source
  concatenates before hashing.
* Randomness (`uuid.uuid4().hex[:12].upper()`, `secrets.token_urlsafe(16)`,
  `secrets.token_hex(16)`) is modelled by explicit entropy-string arguments
  supplied to each operation.
* The JSON stores become explicit association-list states threaded through
  each operation; `_save_licenses` swallows every write exception, which is
  modelled by a `saveOk : Bool` input: on `false` the persisted state stays
  unchanged while execution continues normally.
* Python truthiness of optional/plain strings (`if not admin_username`,
  `if password and ...`, `all([...])`) is modelled by `pyTruthy`/`strTruthy`.
* Default-argument `None` parameters become `Option String`.
-/

/-- Derived verification status, `class LicenseStatus(Enum)`. -/
inductive LicenseStatus where
  | valid
  | invalid
  | expired
  | not_found
  | revoked
  deriving DecidableEq, Repr

/-- License kind, `class LicenseType(Enum)`. -/
inductive LicenseType where
  | commercial
  | regular
  deriving DecidableEq, Repr

/-- `LicenseType.COMMERCIAL.value` / `LicenseType.REGULAR.value`. -/
def LicenseType.value : LicenseType → String
  | .commercial => "commercial"
  | .regular => "regular"

/-- The Python enum constructor `LicenseType(s)`; `none` models the
`ValueError` raised on a string that is not a member value. -/
def LicenseType.ofString (s : String) : Option LicenseType :=
  if s = "commercial" then some .commercial
  else if s = "regular" then some .regular
  else none

/-- Python truthiness of an optional string (default-`None` parameters):
`None` and the empty string are falsy. -/
def pyTruthy : Option String → Bool
  | none => false
  | some s => s ≠ ""

/-- Python truthiness of a plain string: non-empty. -/
def strTruthy (s : String) : Bool := s ≠ ""

/-- `datetime.now() + timedelta(days=d)` at timestamp `now` (seconds). -/
def addDays (now : Int) (d : Int) : Int := now + d * 86400

/-- The single admin credential record stored in `admin_credentials.json`. -/
structure AdminData where
  username : String
  password_hash : String
  salt : String
  deriving DecidableEq, Repr

/-- A commercial license record, the dict built in `issue_license`.
`last_activation`, `last_instance` and `revoked_date` are absent until the
corresponding mutation writes them. -/
structure CommercialRecord where
  license_id : String
  company_name : String
  contact_email : String
  commercial_use_case : String
  issued_date : Int
  expiration_date : Int
  status : String
  max_instances : Int
  password_hash : String
  salt : String
  activations : Int
  license_type : String
  last_activation : Option Int := none
  last_instance : Option String := none
  revoked_date : Option Int := none
  deriving DecidableEq, Repr

/-- A regular license record, the dict built in `issue_regular_license`. -/
structure RegularRecord where
  license_code : String
  issued_date : Int
  expiration_date : Int
  status : String
  license_type : String
  revoked_date : Option Int := none
  deriving DecidableEq, Repr

/-- Python dict read `d[k]` / `k in d`: first binding of `k`, if any. -/
def dictGet {α : Type} : List (String × α) → String → Option α
  | [], _ => none
  | (k', v) :: rest, k => if k' = k then some v else dictGet rest k

/-- Python dict write `d[k] = v`: replace in place, else append. -/
def dictSet {α : Type} : List (String × α) → String → α → List (String × α)
  | [], k, v => [(k, v)]
  | (k', v') :: rest, k, v =>
      if k' = k then (k, v) :: rest else (k', v') :: dictSet rest k v

/-- The commercial store `commercial_licenses.json`:
`{"licenses": {...}, "metadata": {...}}`. -/
structure LicenseDB where
  licenses : List (String × CommercialRecord)
  last_updated : Option Int := none
  deriving DecidableEq, Repr

/-- The regular store `regular_licenses.json`: `{"licenses": {...}}`. -/
structure RegularDB where
  licenses : List (String × RegularRecord)
  deriving DecidableEq, Repr

/-- `_hash_password(password, salt=None) -> (hash, salt)`.
`H` is the SHA-256 hexdigest primitive over `password + salt`; `entropy`
models the fresh `secrets.token_hex(16)` drawn when `salt is None`. -/
def hash_password (H : String → String) (password : String)
    (salt : Option String) (entropy : String) : String × String :=
  let salt := salt.getD entropy
  (H (password ++ salt), salt)

/-- `_verify_admin(username, password) -> bool`. `admin = none` models a
missing `admin_credentials.json` ("not initialized"). -/
def verify_admin (H : String → String) (admin : Option AdminData)
    (username password : String) : Bool :=
  match admin with
  | none => false
  | some a =>
      if a.username ≠ username then false
      else if (hash_password H password (some a.salt) "").1 ≠ a.password_hash then false
      else true

/-- `_save_licenses` / `_save_regular_licenses` catch every write exception
and only print it: on failure the persisted state stays `old` and the caller
continues as if the save had happened. -/
def save_store {σ : Type} (saveOk : Bool) (old new : σ) : σ :=
  if saveOk then new else old

/-- `verify_license(license_id, password=None)
-> (LicenseStatus, LicenseType | None, record | None)`. -/
def verify_license (H : String → String) (db : LicenseDB) (now : Int)
    (license_id : String) (password : Option String) :
    LicenseStatus × Option LicenseType × Option CommercialRecord :=
  match dictGet db.licenses license_id with
  | none => (.not_found, none, none)
  | some r =>
      if now > r.expiration_date then
        (.expired, LicenseType.ofString r.license_type, some r)
      else if r.status ≠ "active" then
        (.invalid, LicenseType.ofString r.license_type, some r)
      else if pyTruthy password ∧ r.license_type = LicenseType.commercial.value then
        if (hash_password H (password.getD "") (some r.salt) "").1 ≠ r.password_hash then
          (.invalid, LicenseType.ofString r.license_type, some r)
        else
          (.valid, LicenseType.ofString r.license_type, some r)
      else
        (.valid, LicenseType.ofString r.license_type, some r)

/-- `verify_regular_license(license_code) -> (LicenseStatus, record | None)`. -/
def verify_regular_license (db : RegularDB) (now : Int) (license_code : String) :
    LicenseStatus × Option RegularRecord :=
  match dictGet db.licenses license_code with
  | none => (.not_found, none)
  | some r =>
      if now > r.expiration_date then (.expired, some r)
      else if r.status ≠ "active" then (.invalid, some r)
      else (.valid, some r)

/-- `issue_license(company_name, contact_email, commercial_use_case,
expiration_days=365, max_instances=1, admin_username=None,
admin_password=None, license_type=COMMERCIAL)
-> (license_id | None, password | None, message)`, paired with the store
after the call. `idTok` models `uuid.uuid4().hex[:12].upper()`, `pwTok`
models `secrets.token_urlsafe(16)`, `saltTok` the salt entropy. -/
def issue_license (H : String → String) (admin : Option AdminData)
    (db : LicenseDB) (now : Int) (saveOk : Bool)
    (idTok pwTok saltTok : String)
    (company_name contact_email commercial_use_case : String)
    (expiration_days max_instances : Int)
    (admin_username admin_password : Option String)
    (license_type : LicenseType) :
    (Option String × Option String × String) × LicenseDB :=
  if ¬ (pyTruthy admin_username ∧ pyTruthy admin_password) then
    ((none, none, "❌ Admin credentials required"), db)
  else if ¬ verify_admin H admin (admin_username.getD "") (admin_password.getD "") then
    ((none, none, "❌ Admin authentication failed"), db)
  else if ¬ (strTruthy company_name ∧ strTruthy contact_email ∧
             strTruthy commercial_use_case) then
    ((none, none, "❌ company_name, contact_email, and use_case are required"), db)
  else if expiration_days < 1 ∨ max_instances < 1 then
    ((none, none, "❌ expiration_days and max_instances must be >= 1"), db)
  else
    let license_id := "AI-INV-" ++ idTok
    let hs := hash_password H pwTok none saltTok
    let license_data : CommercialRecord :=
      { license_id := license_id
        company_name := company_name
        contact_email := contact_email
        commercial_use_case := commercial_use_case
        issued_date := now
        expiration_date := addDays now expiration_days
        status := "active"
        max_instances := max_instances
        password_hash := hs.1
        salt := hs.2
        activations := 0
        license_type := license_type.value }
    let data' : LicenseDB :=
      { licenses := dictSet db.licenses license_id license_data
        last_updated := some now }
    ((some license_id, some pwTok, "✅ License issued: " ++ license_id),
     save_store saveOk db data')

/-- `issue_regular_license(expiration_days=30, admin_username=None,
admin_password=None) -> (license_code | None, message)`, paired with the
store after the call. `tok` models `uuid.uuid4().hex[:12].upper()`. -/
def issue_regular_license (H : String → String) (admin : Option AdminData)
    (db : RegularDB) (now : Int) (saveOk : Bool) (tok : String)
    (expiration_days : Int)
    (admin_username admin_password : Option String) :
    (Option String × String) × RegularDB :=
  if ¬ (pyTruthy admin_username ∧ pyTruthy admin_password) then
    ((none, "❌ Admin credentials required"), db)
  else if ¬ verify_admin H admin (admin_username.getD "") (admin_password.getD "") then
    ((none, "❌ Admin authentication failed"), db)
  else
    let license_code := "REG-" ++ tok
    let license_data : RegularRecord :=
      { license_code := license_code
        issued_date := now
        expiration_date := addDays now expiration_days
        status := "active"
        license_type := LicenseType.regular.value }
    let data' : RegularDB := { licenses := dictSet db.licenses license_code license_data }
    ((some license_code, "✅ Regular license issued: " ++ license_code),
     save_store saveOk db data')

/-- `revoke_license(license_id, admin_username=None, admin_password=None)
-> (bool, message)`, paired with the store after the call. -/
def revoke_license (H : String → String) (admin : Option AdminData)
    (db : LicenseDB) (now : Int) (saveOk : Bool) (license_id : String)
    (admin_username admin_password : Option String) :
    (Bool × String) × LicenseDB :=
  if ¬ (pyTruthy admin_username ∧ pyTruthy admin_password) then
    ((false, "❌ Admin credentials required"), db)
  else if ¬ verify_admin H admin (admin_username.getD "") (admin_password.getD "") then
    ((false, "❌ Admin authentication failed"), db)
  else
    match dictGet db.licenses license_id with
    | none => ((false, "❌ License " ++ license_id ++ " not found"), db)
    | some r =>
        let r' := { r with status := "revoked", revoked_date := some now }
        let data' : LicenseDB := { db with licenses := dictSet db.licenses license_id r' }
        ((true, "✅ License " ++ license_id ++ " revoked"),
         save_store saveOk db data')

/-- `revoke_regular_license(license_code, admin_username=None,
admin_password=None) -> (bool, message)`, paired with the store. -/
def revoke_regular_license (H : String → String) (admin : Option AdminData)
    (db : RegularDB) (now : Int) (saveOk : Bool) (license_code : String)
    (admin_username admin_password : Option String) :
    (Bool × String) × RegularDB :=
  if ¬ (pyTruthy admin_username ∧ pyTruthy admin_password) then
    ((false, "❌ Admin credentials required"), db)
  else if ¬ verify_admin H admin (admin_username.getD "") (admin_password.getD "") then
    ((false, "❌ Admin authentication failed"), db)
  else
    match dictGet db.licenses license_code with
    | none => ((false, "❌ License " ++ license_code ++ " not found"), db)
    | some r =>
        let r' := { r with status := "revoked", revoked_date := some now }
        let data' : RegularDB := { licenses := dictSet db.licenses license_code r' }
        ((true, "✅ Regular license " ++ license_code ++ " revoked"),
         save_store saveOk db data')

/-- A Python runtime exception relevant to this module. -/
inductive PyErr where
  | valueError
  deriving DecidableEq, Repr

/-- One boxed component of the Python tuple returned by `verify_license`. -/
inductive PyVal where
  | status (s : LicenseStatus)
  | ltype (t : Option LicenseType)
  | record (r : Option CommercialRecord)
  deriving DecidableEq, Repr

/-- The Python-level return value of `verify_license`: a 3-tuple. -/
def verify_license_pyTuple (H : String → String) (db : LicenseDB) (now : Int)
    (license_id : String) (password : Option String) : List PyVal :=
  let r := verify_license H db now license_id password
  [.status r.1, .ltype r.2.1, .record r.2.2]

/-- Python tuple unpacking `a, b = t`: succeeds only on a 2-tuple, otherwise
raises `ValueError` ("too many values to unpack"). -/
def pyUnpack2 : List PyVal → Except PyErr (PyVal × PyVal)
  | [a, b] => .ok (a, b)
  | _ => .error .valueError

/-- `activate_license(license_id, password, instance_identifier=None)
-> (success, message)`, paired with the store after the call.

Its first statement, `is_valid, license_record = verify_license(license_id,
password)`, unpacks the 3-tuple returned by `verify_license` into two
targets, which raises `ValueError` in Python. `activate_license` has no
`try`/`except`, so the exception propagates to the caller before the limit
check, the counter increment or any store access; the remainder of the
Python body is unreachable and the store is never written (hence no
`saveOk` argument: `_save_licenses` is never reached). -/
def activate_license (H : String → String) (db : LicenseDB) (now : Int)
    (license_id password : String) (instance_identifier : Option String) :
    Except PyErr (Bool × String) × LicenseDB :=
  match pyUnpack2 (verify_license_pyTuple H db now license_id (some password)) with
  | .error e => (.error e, db)
  | .ok _ => (.error .valueError, db)  -- unreachable: the tuple always has 3 components

/-- Modelled from the claim's words (C2): the derived status of a present
record, decided in the claimed fixed order, first match winning — past
expiration → `expired` regardless of the persisted status field; persisted
status other than active → `invalid`; a supplied (non-empty) non-matching
password on a commercial-kind license → `invalid`; otherwise `valid`. -/
def claimedStatus (H : String → String) (r : CommercialRecord) (now : Int)
    (password : Option String) : LicenseStatus :=
  if now > r.expiration_date then .expired
  else if r.status ≠ "active" then .invalid
  else if pyTruthy password ∧ r.license_type = "commercial" ∧
          (hash_password H (password.getD "") (some r.salt) "").1 ≠ r.password_hash then
    .invalid
  else .valid

/-- Modelled from the claim's words (C2): an identifier absent from the
store yields `not_found` with no record; otherwise the record is returned
together with its `claimedStatus`. -/
def verify_license_spec (H : String → String) (db : LicenseDB) (now : Int)
    (license_id : String) (password : Option String) :
    LicenseStatus × Option LicenseType × Option CommercialRecord :=
  match dictGet db.licenses license_id with
  | none => (.not_found, none, none)
  | some r => (claimedStatus H r now password, LicenseType.ofString r.license_type, some r)

/-! ## Concrete fixture used by witnesses and counterexamples -/

/-- A concrete stand-in for the SHA-256 hexdigest primitive, used only to
instantiate universally quantified theorems at a computable point. -/
def sampleH : String → String := fun s => s

/-- A concrete admin record whose password under `sampleH` is `"pw"`. -/
def sampleAdmin : AdminData :=
  { username := "admin", password_hash := "pws", salt := "s" }

/-- A concrete active commercial record whose password under `sampleH` is
`"P"` (stored hash `sampleH ("P" ++ "t") = "Pt"`), expiring at time 100. -/
def sampleRecord : CommercialRecord :=
  { license_id := "AI-INV-X"
    company_name := "Acme"
    contact_email := "a@b.c"
    commercial_use_case := "trading"
    issued_date := 0
    expiration_date := 100
    status := "active"
    max_instances := 1
    password_hash := "Pt"
    salt := "t"
    activations := 0
    license_type := "commercial" }

/-- A commercial store holding exactly `sampleRecord`. -/
def sampleDB : LicenseDB := { licenses := [("AI-INV-X", sampleRecord)] }

/-- A concrete active regular record expiring at time 100. -/
def sampleRegularRecord : RegularRecord :=
  { license_code := "REG-Y"
    issued_date := 0
    expiration_date := 100
    status := "active"
    license_type := "regular" }

/-- A regular store holding exactly `sampleRegularRecord`. -/
def sampleRegularDB : RegularDB := { licenses := [("REG-Y", sampleRegularRecord)] }

/-! ## Helper lemmas -/

/-- Reading back the key just written returns the written value. -/
theorem dictGet_dictSet_self {α : Type} (xs : List (String × α)) (k : String) (v : α) :
    dictGet (dictSet xs k v) k = some v := by
  induction xs with
  | nil => simp [dictSet, dictGet]
  | cons p rest ih =>
      by_cases h : p.1 = k
      · simp [dictSet, h, dictGet]
      · simp [dictSet, h, dictGet, ih]

/-- Writing the same key twice keeps only the second value. -/
theorem dictSet_dictSet_self {α : Type} (xs : List (String × α)) (k : String) (v w : α) :
    dictSet (dictSet xs k v) k w = dictSet xs k w := by
  induction xs with
  | nil => simp [dictSet]
  | cons p rest ih =>
      by_cases h : p.1 = k
      · simp [dictSet, h]
      · simp [dictSet, h, ih]

/-! ## Claims -/

/-- C1: the claim says `activate_license` enforces the `max_instances`
activation cap (limit-exceeded failure without mutation at the cap, else a
counter increment by exactly 1). The code cannot do either: its first
statement unpacks the 3-tuple returned by `verify_license` into two targets,
so every call — whatever the store, timestamp, identifier or password —
raises `ValueError` and leaves the store untouched, contradicting the
function's own docstring `Returns: (success, message)`. -/
theorem C1_activate_license_always_raises (H : String → String) (db : LicenseDB)
    (now : Int) (license_id password : String) (instance_identifier : Option String) :
    activate_license H db now license_id password instance_identifier =
      (.error .valueError, db) := rfl

/-- C2: `verify_license` equals, on every input, the decision procedure
spelled out by the claim (`verify_license_spec`): absent identifier →
`not_found` with no record; past expiration → `expired` with the record,
regardless of the persisted status; persisted status ≠ active → `invalid`
(revoked records included); supplied (non-empty) non-matching password on a
commercial-kind license → `invalid`; otherwise `valid`. -/
theorem C2_verify_license_decision_order (H : String → String) (db : LicenseDB)
    (now : Int) (license_id : String) (password : Option String) :
    verify_license H db now license_id password =
      verify_license_spec H db now license_id password := by
  unfold verify_license verify_license_spec claimedStatus
  cases dictGet db.licenses license_id with
  | none => rfl
  | some r =>
      by_cases h1 : now > r.expiration_date
      · simp [h1]
      · by_cases h2 : r.status = "active"
        · by_cases h3 : pyTruthy password = true
          · by_cases h4 : r.license_type = "commercial"
            · by_cases h5 :
                (hash_password H (password.getD "") (some r.salt) "").1 = r.password_hash
              · simp [h1, h2, h3, h4, h5, LicenseType.value]
              · simp [h1, h2, h3, h4, h5, LicenseType.value]
            · simp [h1, h2, h3, h4, LicenseType.value]
          · simp [h1, h2, h3, LicenseType.value]
        · simp [h1, h2]

/-- C3: a wrong (non-empty, non-matching) password against an existing,
active, unexpired commercial license verifies as `invalid`, never `valid`;
the stored record is returned as-is and — `verify_license` being a pure
reader that returns no updated store — the stored data is unchanged. -/
theorem C3_wrong_password_invalid (H : String → String) (db : LicenseDB) (now : Int)
    (license_id password : String) (r : CommercialRecord)
    (hfound : dictGet db.licenses license_id = some r)
    (hactive : r.status = "active")
    (hnotexp : ¬ now > r.expiration_date)
    (hkind : r.license_type = "commercial")
    (hpw : password ≠ "")
    (hmismatch : H (password ++ r.salt) ≠ r.password_hash) :
    verify_license H db now license_id (some password) =
      (.invalid, some .commercial, some r) := by
  simp [verify_license, hfound, hnotexp, hactive, hkind, pyTruthy, hpw,
    hash_password, hmismatch, LicenseType.ofString, LicenseType.value]

/-- C3 witness: the concrete fixture under the wrong password `"wrong"`. -/
theorem C3_wrong_password_invalid_witness :
    verify_license sampleH sampleDB 0 "AI-INV-X" (some "wrong") =
      (.invalid, some .commercial, some sampleRecord) :=
  C3_wrong_password_invalid sampleH sampleDB 0 "AI-INV-X" "wrong" sampleRecord
    (by decide) (by decide) (by decide) (by decide) (by decide) (by decide)

/-- C9: the empty string as supplied password bypasses the password-hash
comparison entirely (`if password and ...` is skipped on a falsy string), so
an existing, active, unexpired commercial license verifies as `valid`. -/
theorem C9_empty_password_bypasses_check (H : String → String) (db : LicenseDB)
    (now : Int) (license_id : String) (r : CommercialRecord)
    (hfound : dictGet db.licenses license_id = some r)
    (hactive : r.status = "active")
    (hnotexp : ¬ now > r.expiration_date)
    (hkind : r.license_type = "commercial") :
    verify_license H db now license_id (some "") =
      (.valid, some .commercial, some r) := by
  simp [verify_license, hfound, hnotexp, hactive, hkind, pyTruthy,
    LicenseType.ofString, LicenseType.value]

/-- C9 witness: the concrete fixture with the empty password. -/
theorem C9_empty_password_bypasses_check_witness :
    verify_license sampleH sampleDB 0 "AI-INV-X" (some "") =
      (.valid, some .commercial, some sampleRecord) :=
  C9_empty_password_bypasses_check sampleH sampleDB 0 "AI-INV-X" sampleRecord
    (by decide) (by decide) (by decide) (by decide)

/-- C8: `_hash_password` is deterministic in (secret, salt): with the same
explicit salt it returns the identical digest and the identical salt,
whatever entropy the generator would have produced; with no salt it returns
the fresh `token_hex` entropy as the salt, so two calls drawing distinct
entropy yield distinct salts, and distinct digests whenever SHA-256 does not
collide on the two salted inputs (the claim's "overwhelming probability"
event). -/
theorem C8_hash_password_deterministic (H : String → String)
    (secret salt e₁ e₂ : String) :
    (hash_password H secret (some salt) e₁ = hash_password H secret (some salt) e₂ ∧
      (hash_password H secret (some salt) e₁).2 = salt) ∧
    (hash_password H secret none e₁).2 = e₁ ∧
    (e₁ ≠ e₂ →
      (hash_password H secret none e₁).2 ≠ (hash_password H secret none e₂).2) ∧
    (H (secret ++ e₁) ≠ H (secret ++ e₂) →
      (hash_password H secret none e₁).1 ≠ (hash_password H secret none e₂).1) := by
  refine ⟨⟨rfl, rfl⟩, rfl, fun h => ?_, fun h => ?_⟩ <;> simpa [hash_password]

/-- C8 witness: concrete secret and salts; distinct entropy gives distinct
salts and (no collision under `sampleH`) distinct digests. -/
theorem C8_hash_password_deterministic_witness :
    hash_password sampleH "a" (some "s") "x" = hash_password sampleH "a" (some "s") "y" ∧
    (hash_password sampleH "a" none "x").2 ≠ (hash_password sampleH "a" none "y").2 ∧
    (hash_password sampleH "a" none "x").1 ≠ (hash_password sampleH "a" none "y").1 :=
  ⟨(C8_hash_password_deterministic sampleH "a" "s" "x" "y").1.1,
   (C8_hash_password_deterministic sampleH "a" "s" "x" "y").2.2.1 (by decide),
   (C8_hash_password_deterministic sampleH "a" "s" "x" "y").2.2.2 (by decide)⟩

/-- C5: for every valid issuance input — authenticated admin, non-empty
company name, contact email and use case, `expiration_days ≥ 1`,
`max_instances ≥ 1` (and a successful store write) — `issue_license` returns
a license id and plaintext password, and immediately verifying that id with
that password yields `valid`. -/
theorem C5_issue_then_verify_valid
    (H : String → String) (admin : Option AdminData) (db : LicenseDB) (now : Int)
    (idTok pwTok saltTok company email usecase : String)
    (days maxInst : Int) (au ap : Option String)
    (hau : pyTruthy au = true) (hap : pyTruthy ap = true)
    (hadmin : verify_admin H admin (au.getD "") (ap.getD "") = true)
    (hc : company ≠ "") (he : email ≠ "") (hu : usecase ≠ "")
    (hd : 1 ≤ days) (hm : 1 ≤ maxInst) :
    (issue_license H admin db now true idTok pwTok saltTok company email usecase
        days maxInst au ap .commercial).1.1 = some ("AI-INV-" ++ idTok) ∧
    (issue_license H admin db now true idTok pwTok saltTok company email usecase
        days maxInst au ap .commercial).1.2.1 = some pwTok ∧
    (verify_license H
        (issue_license H admin db now true idTok pwTok saltTok company email usecase
            days maxInst au ap .commercial).2
        now ("AI-INV-" ++ idTok) (some pwTok)).1 = .valid := by
  have hnd : ¬ (days < 1 ∨ maxInst < 1) := by omega
  have hissue : issue_license H admin db now true idTok pwTok saltTok company email
      usecase days maxInst au ap .commercial =
      ((some ("AI-INV-" ++ idTok), some pwTok,
          "✅ License issued: " ++ ("AI-INV-" ++ idTok)),
        { licenses := dictSet db.licenses ("AI-INV-" ++ idTok)
            { license_id := "AI-INV-" ++ idTok
              company_name := company
              contact_email := email
              commercial_use_case := usecase
              issued_date := now
              expiration_date := addDays now days
              status := "active"
              max_instances := maxInst
              password_hash := H (pwTok ++ saltTok)
              salt := saltTok
              activations := 0
              license_type := "commercial" }
          last_updated := some now }) := by
    simp [issue_license, hau, hap, hadmin, strTruthy, hc, he, hu, hnd, save_store,
      hash_password, LicenseType.value]
  have hexp : ¬ now > addDays now days := by unfold addDays; omega
  refine ⟨by rw [hissue], by rw [hissue], ?_⟩
  rw [hissue]
  by_cases hp : pwTok = ""
  · simp [verify_license, dictGet_dictSet_self, hexp, pyTruthy, hp]
  · simp [verify_license, dictGet_dictSet_self, hexp, pyTruthy, hp, hash_password,
      LicenseType.value]

/-- C5 witness: a concrete issuance against the authenticated fixture admin,
verified immediately at the same timestamp. -/
theorem C5_issue_then_verify_valid_witness :
    (issue_license sampleH (some sampleAdmin) { licenses := [] } 0 true "T" "P" "S"
        "Acme" "a@b.c" "trading" 365 1 (some "admin") (some "pw") .commercial).1.1 =
      some ("AI-INV-" ++ "T") ∧
    (issue_license sampleH (some sampleAdmin) { licenses := [] } 0 true "T" "P" "S"
        "Acme" "a@b.c" "trading" 365 1 (some "admin") (some "pw") .commercial).1.2.1 =
      some "P" ∧
    (verify_license sampleH
        (issue_license sampleH (some sampleAdmin) { licenses := [] } 0 true "T" "P" "S"
            "Acme" "a@b.c" "trading" 365 1 (some "admin") (some "pw") .commercial).2
        0 ("AI-INV-" ++ "T") (some "P")).1 = .valid :=
  C5_issue_then_verify_valid sampleH (some sampleAdmin) { licenses := [] } 0
    "T" "P" "S" "Acme" "a@b.c" "trading" 365 1 (some "admin") (some "pw")
    (by decide) (by decide) (by decide) (by decide) (by decide) (by decide)
    (by decide) (by decide)

/-- C10: `issue_regular_license` performs no range validation on
`expiration_days`: for every value, including 0 and negative ones, an
authenticated admin call succeeds, persists the record and returns the
license code; with `expiration_days ≤ 0` the stored expiration timestamp is
not after the issued timestamp, and any strictly later verification reports
`expired`. -/
theorem C10_issue_regular_no_range_validation
    (H : String → String) (admin : Option AdminData) (db : RegularDB)
    (now now' : Int) (tok : String) (days : Int) (au ap : Option String)
    (hau : pyTruthy au = true) (hap : pyTruthy ap = true)
    (hadmin : verify_admin H admin (au.getD "") (ap.getD "") = true) :
    (issue_regular_license H admin db now true tok days au ap).1.1 =
      some ("REG-" ++ tok) ∧
    dictGet (issue_regular_license H admin db now true tok days au ap).2.licenses
        ("REG-" ++ tok) =
      some { license_code := "REG-" ++ tok, issued_date := now,
             expiration_date := addDays now days, status := "active",
             license_type := "regular" } ∧
    (days ≤ 0 → addDays now days ≤ now) ∧
    (days ≤ 0 → now < now' →
      (verify_regular_license
          (issue_regular_license H admin db now true tok days au ap).2
          now' ("REG-" ++ tok)).1 = .expired) := by
  have hissue : issue_regular_license H admin db now true tok days au ap =
      ((some ("REG-" ++ tok), "✅ Regular license issued: " ++ ("REG-" ++ tok)),
        { licenses := dictSet db.licenses ("REG-" ++ tok)
            { license_code := "REG-" ++ tok, issued_date := now,
              expiration_date := addDays now days, status := "active",
              license_type := "regular" } }) := by
    simp [issue_regular_license, hau, hap, hadmin, save_store, LicenseType.value]
  refine ⟨by rw [hissue], ?_, ?_, ?_⟩
  · rw [hissue]
    exact dictGet_dictSet_self db.licenses ("REG-" ++ tok) _
  · intro h
    unfold addDays
    omega
  · intro h hlt
    rw [hissue]
    have hex : now' > addDays now days := by unfold addDays at *; omega
    simp [verify_regular_license, dictGet_dictSet_self, hex]

/-- C10 witness: issuing with `expiration_days = -1` succeeds, stores an
already-past expiration, and verifies `expired` one tick later. -/
theorem C10_issue_regular_no_range_validation_witness :
    (issue_regular_license sampleH (some sampleAdmin) { licenses := [] } 0 true "Z"
        (-1) (some "admin") (some "pw")).1.1 = some ("REG-" ++ "Z") ∧
    dictGet (issue_regular_license sampleH (some sampleAdmin) { licenses := [] } 0
        true "Z" (-1) (some "admin") (some "pw")).2.licenses ("REG-" ++ "Z") =
      some { license_code := "REG-" ++ "Z", issued_date := 0,
             expiration_date := addDays 0 (-1), status := "active",
             license_type := "regular" } ∧
    ((-1 : Int) ≤ 0 → addDays 0 (-1) ≤ 0) ∧
    ((-1 : Int) ≤ 0 → (0 : Int) < 1 →
      (verify_regular_license
          (issue_regular_license sampleH (some sampleAdmin) { licenses := [] } 0 true
              "Z" (-1) (some "admin") (some "pw")).2
          1 ("REG-" ++ "Z")).1 = .expired) :=
  C10_issue_regular_no_range_validation sampleH (some sampleAdmin) { licenses := [] }
    0 1 "Z" (-1) (some "admin") (some "pw") (by decide) (by decide) (by decide)

/-- C4: admin-gated mutating operations are atomic with respect to failure:
when admin authentication fails (missing/falsy credentials, uninitialized
admin, or a non-verifying username/password), all four of `issue_license`,
`issue_regular_license`, `revoke_license` and `revoke_regular_license`
return an error outcome and leave both stores unchanged; and when input
validation fails in `issue_license` (an empty required field or an
out-of-range `expiration_days`/`max_instances`), it returns an error outcome
and leaves the store unchanged, whatever the authentication outcome. -/
theorem C4_admin_gate_no_partial_apply
    (H : String → String) (admin : Option AdminData)
    (cdb : LicenseDB) (rdb : RegularDB) (now : Int) (saveOk : Bool)
    (idTok pwTok saltTok tok lid code company email usecase : String)
    (days maxInst rdays : Int) (au ap : Option String) (lt : LicenseType) :
    (¬ (pyTruthy au = true ∧ pyTruthy ap = true ∧
        verify_admin H admin (au.getD "") (ap.getD "") = true) →
      ((issue_license H admin cdb now saveOk idTok pwTok saltTok company email
          usecase days maxInst au ap lt).1.1 = none ∧
        (issue_license H admin cdb now saveOk idTok pwTok saltTok company email
          usecase days maxInst au ap lt).2 = cdb) ∧
      ((issue_regular_license H admin rdb now saveOk tok rdays au ap).1.1 = none ∧
        (issue_regular_license H admin rdb now saveOk tok rdays au ap).2 = rdb) ∧
      ((revoke_license H admin cdb now saveOk lid au ap).1.1 = false ∧
        (revoke_license H admin cdb now saveOk lid au ap).2 = cdb) ∧
      ((revoke_regular_license H admin rdb now saveOk code au ap).1.1 = false ∧
        (revoke_regular_license H admin rdb now saveOk code au ap).2 = rdb)) ∧
    ((company = "" ∨ email = "" ∨ usecase = "" ∨ days < 1 ∨ maxInst < 1) →
      (issue_license H admin cdb now saveOk idTok pwTok saltTok company email
        usecase days maxInst au ap lt).1.1 = none ∧
      (issue_license H admin cdb now saveOk idTok pwTok saltTok company email
        usecase days maxInst au ap lt).2 = cdb) := by
  constructor
  · intro hfail
    by_cases ha : pyTruthy au = true
    · by_cases hb : pyTruthy ap = true
      · have hc : ¬ verify_admin H admin (au.getD "") (ap.getD "") = true :=
          fun h => hfail ⟨ha, hb, h⟩
        exact ⟨by simp [issue_license, ha, hb, hc],
          by simp [issue_regular_license, ha, hb, hc],
          by simp [revoke_license, ha, hb, hc],
          by simp [revoke_regular_license, ha, hb, hc]⟩
      · exact ⟨by simp [issue_license, hb],
          by simp [issue_regular_license, hb],
          by simp [revoke_license, hb],
          by simp [revoke_regular_license, hb]⟩
    · exact ⟨by simp [issue_license, ha],
        by simp [issue_regular_license, ha],
        by simp [revoke_license, ha],
        by simp [revoke_regular_license, ha]⟩
  · intro hval
    by_cases ha : pyTruthy au = true
    · by_cases hb : pyTruthy ap = true
      · by_cases hadm : verify_admin H admin (au.getD "") (ap.getD "") = true
        · rcases hval with h | h | h | h | h
          · simp [issue_license, ha, hb, hadm, strTruthy, h]
          · simp [issue_license, ha, hb, hadm, strTruthy, h]
          · simp [issue_license, ha, hb, hadm, strTruthy, h]
          · by_cases hs : (strTruthy company = true ∧ strTruthy email = true ∧
                strTruthy usecase = true)
            · simp [issue_license, ha, hb, hadm, hs.1, hs.2.1, hs.2.2, h]
            · simp [issue_license, ha, hb, hadm, hs]
          · by_cases hs : (strTruthy company = true ∧ strTruthy email = true ∧
                strTruthy usecase = true)
            · simp [issue_license, ha, hb, hadm, hs.1, hs.2.1, hs.2.2, h]
            · simp [issue_license, ha, hb, hadm, hs]
        · simp [issue_license, ha, hb, hadm]
      · simp [issue_license, hb]
    · simp [issue_license, ha]

/-- C4 witness: missing admin credentials plus an empty company name — all
four operations error out and both fixture stores are left unchanged. -/
theorem C4_admin_gate_no_partial_apply_witness :
    (((issue_license sampleH (some sampleAdmin) sampleDB 0 true "T" "P" "S" "" "e"
          "u" 365 1 none none .commercial).1.1 = none ∧
        (issue_license sampleH (some sampleAdmin) sampleDB 0 true "T" "P" "S" "" "e"
          "u" 365 1 none none .commercial).2 = sampleDB) ∧
      ((issue_regular_license sampleH (some sampleAdmin) sampleRegularDB 0 true "Z"
          30 none none).1.1 = none ∧
        (issue_regular_license sampleH (some sampleAdmin) sampleRegularDB 0 true "Z"
          30 none none).2 = sampleRegularDB) ∧
      ((revoke_license sampleH (some sampleAdmin) sampleDB 0 true "AI-INV-X" none
          none).1.1 = false ∧
        (revoke_license sampleH (some sampleAdmin) sampleDB 0 true "AI-INV-X" none
          none).2 = sampleDB) ∧
      ((revoke_regular_license sampleH (some sampleAdmin) sampleRegularDB 0 true
          "REG-Y" none none).1.1 = false ∧
        (revoke_regular_license sampleH (some sampleAdmin) sampleRegularDB 0 true
          "REG-Y" none none).2 = sampleRegularDB)) ∧
    ((issue_license sampleH (some sampleAdmin) sampleDB 0 true "T" "P" "S" "" "e"
        "u" 365 1 none none .commercial).1.1 = none ∧
      (issue_license sampleH (some sampleAdmin) sampleDB 0 true "T" "P" "S" "" "e"
        "u" 365 1 none none .commercial).2 = sampleDB) :=
  ⟨(C4_admin_gate_no_partial_apply sampleH (some sampleAdmin) sampleDB
      sampleRegularDB 0 true "T" "P" "S" "Z" "AI-INV-X" "REG-Y" "" "e" "u" 365 1 30
      none none .commercial).1 (by decide),
   (C4_admin_gate_no_partial_apply sampleH (some sampleAdmin) sampleDB
      sampleRegularDB 0 true "T" "P" "S" "Z" "AI-INV-X" "REG-Y" "" "e" "u" 365 1 30
      none none .commercial).2 (Or.inl rfl)⟩

/-- C6 counterexample: revoking the fixture license at time 0 and again at
time 1 is not a no-op — the second call restamps `revoked_date`, so the
observable stored record state after the second revocation differs from the
state after the first. -/
theorem C6_second_revoke_restamps_date :
    (revoke_license sampleH (some sampleAdmin)
        (revoke_license sampleH (some sampleAdmin) sampleDB 0 true "AI-INV-X"
          (some "admin") (some "pw")).2
        1 true "AI-INV-X" (some "admin") (some "pw")).2 ≠
      (revoke_license sampleH (some sampleAdmin) sampleDB 0 true "AI-INV-X"
        (some "admin") (some "pw")).2 := by decide

/-- C6 (amended): a successful revocation flips the stored status to
`revoked` and stamps `revoked_date`; every subsequent verification, at any
time and with any password, reports a non-`valid` status; revoking again
succeeds and leaves the record identical except that `revoked_date` is
restamped to the second call's timestamp — so the claimed no-op holds
exactly when the two calls carry the same timestamp. -/
theorem C6_revoke_permanent_second_restamps_only_date
    (H : String → String) (admin : Option AdminData) (db : LicenseDB)
    (now₁ now₂ now' : Int) (license_id : String) (r : CommercialRecord)
    (pw au ap : Option String)
    (hau : pyTruthy au = true) (hap : pyTruthy ap = true)
    (hadmin : verify_admin H admin (au.getD "") (ap.getD "") = true)
    (hfound : dictGet db.licenses license_id = some r) :
    (revoke_license H admin db now₁ true license_id au ap).1 =
      (true, "✅ License " ++ license_id ++ " revoked") ∧
    dictGet (revoke_license H admin db now₁ true license_id au ap).2.licenses
        license_id =
      some { r with status := "revoked", revoked_date := some now₁ } ∧
    (verify_license H (revoke_license H admin db now₁ true license_id au ap).2 now'
        license_id pw).1 ≠ .valid ∧
    (revoke_license H admin
        (revoke_license H admin db now₁ true license_id au ap).2 now₂ true
        license_id au ap).1.1 = true ∧
    dictGet (revoke_license H admin
        (revoke_license H admin db now₁ true license_id au ap).2 now₂ true
        license_id au ap).2.licenses license_id =
      some { r with status := "revoked", revoked_date := some now₂ } ∧
    (now₂ = now₁ →
      (revoke_license H admin
          (revoke_license H admin db now₁ true license_id au ap).2 now₂ true
          license_id au ap).2 =
        (revoke_license H admin db now₁ true license_id au ap).2) := by
  have h1 : revoke_license H admin db now₁ true license_id au ap =
      ((true, "✅ License " ++ license_id ++ " revoked"),
        { db with
          licenses := dictSet db.licenses license_id
            ({ r with status := "revoked", revoked_date := some now₁ }) }) := by
    simp [revoke_license, hau, hap, hadmin, hfound, save_store]
  have hkey := dictGet_dictSet_self db.licenses license_id
    { r with status := "revoked", revoked_date := some now₁ }
  have h2 : revoke_license H admin
      { db with
        licenses := dictSet db.licenses license_id
          ({ r with status := "revoked", revoked_date := some now₁ }) } now₂ true
      license_id au ap =
      ((true, "✅ License " ++ license_id ++ " revoked"),
        { db with
          licenses := dictSet db.licenses license_id
            ({ r with status := "revoked", revoked_date := some now₂ }) }) := by
    simp [revoke_license, hau, hap, hadmin, hkey, save_store, dictSet_dictSet_self]
  refine ⟨by rw [h1], by rw [h1]; exact hkey, ?_, by rw [h1, h2],
    by rw [h1, h2]; exact dictGet_dictSet_self db.licenses license_id _, ?_⟩
  · rw [h1]
    by_cases hex : now' > r.expiration_date <;>
      simp [verify_license, hkey, hex]
  · intro he
    subst he
    rw [h1, h2]

/-- C6 witness: the fixture license revoked twice at the same timestamp 5,
with an intermediate verification attempt at time 3. -/
theorem C6_revoke_permanent_second_restamps_only_date_witness :
    (revoke_license sampleH (some sampleAdmin) sampleDB 5 true "AI-INV-X"
        (some "admin") (some "pw")).1 =
      (true, "✅ License " ++ "AI-INV-X" ++ " revoked") ∧
    dictGet (revoke_license sampleH (some sampleAdmin) sampleDB 5 true "AI-INV-X"
        (some "admin") (some "pw")).2.licenses "AI-INV-X" =
      some { sampleRecord with status := "revoked", revoked_date := some 5 } ∧
    (verify_license sampleH
        (revoke_license sampleH (some sampleAdmin) sampleDB 5 true "AI-INV-X"
          (some "admin") (some "pw")).2 3 "AI-INV-X" (some "P")).1 ≠ .valid ∧
    (revoke_license sampleH (some sampleAdmin)
        (revoke_license sampleH (some sampleAdmin) sampleDB 5 true "AI-INV-X"
          (some "admin") (some "pw")).2 5 true "AI-INV-X"
        (some "admin") (some "pw")).1.1 = true ∧
    dictGet (revoke_license sampleH (some sampleAdmin)
        (revoke_license sampleH (some sampleAdmin) sampleDB 5 true "AI-INV-X"
          (some "admin") (some "pw")).2 5 true "AI-INV-X"
        (some "admin") (some "pw")).2.licenses "AI-INV-X" =
      some { sampleRecord with status := "revoked", revoked_date := some 5 } ∧
    ((5 : Int) = 5 →
      (revoke_license sampleH (some sampleAdmin)
          (revoke_license sampleH (some sampleAdmin) sampleDB 5 true "AI-INV-X"
            (some "admin") (some "pw")).2 5 true "AI-INV-X"
          (some "admin") (some "pw")).2 =
        (revoke_license sampleH (some sampleAdmin) sampleDB 5 true "AI-INV-X"
          (some "admin") (some "pw")).2) :=
  C6_revoke_permanent_second_restamps_only_date sampleH (some sampleAdmin) sampleDB
    5 5 3 "AI-INV-X" sampleRecord (some "P") (some "admin") (some "pw")
    (by decide) (by decide) (by decide) (by decide)

/-- C7 counterexample: with the store write failing, `issue_license` still
returns the full success outcome — a license id, the plaintext password and
the success message — while the persisted store is left unchanged; the
returned outcome does not report the write failure to the caller. -/
theorem C7_issue_reports_success_despite_failed_save :
    issue_license sampleH (some sampleAdmin) { licenses := [] } 0 false "T" "P" "S"
        "Acme" "a@b.c" "trading" 365 1 (some "admin") (some "pw") .commercial =
      ((some "AI-INV-T", some "P", "✅ License issued: AI-INV-T"),
        { licenses := [] }) := by decide

/-- C7 (amended): a store write failure during issuance or revocation does
not terminate the process — `_save_licenses`/`_save_regular_licenses` catch
the exception and only print it — but the failure is not reported in the
returned outcome: each operation still returns its full success result while
the persisted store is left unchanged. (Activation never reaches its store
write at all: see the C1 theorem.) -/
theorem C7_failed_save_keeps_success_outcome
    (H : String → String) (admin : Option AdminData) (cdb : LicenseDB)
    (rdb : RegularDB) (now : Int)
    (idTok pwTok saltTok tok lid code company email usecase : String)
    (days maxInst rdays : Int) (au ap : Option String)
    (rC : CommercialRecord) (rR : RegularRecord)
    (hau : pyTruthy au = true) (hap : pyTruthy ap = true)
    (hadmin : verify_admin H admin (au.getD "") (ap.getD "") = true)
    (hc : company ≠ "") (he : email ≠ "") (hu : usecase ≠ "")
    (hd : 1 ≤ days) (hm : 1 ≤ maxInst)
    (hfoundC : dictGet cdb.licenses lid = some rC)
    (hfoundR : dictGet rdb.licenses code = some rR) :
    (issue_license H admin cdb now false idTok pwTok saltTok company email usecase
        days maxInst au ap .commercial).1 =
      (some ("AI-INV-" ++ idTok), some pwTok,
        "✅ License issued: " ++ ("AI-INV-" ++ idTok)) ∧
    (issue_license H admin cdb now false idTok pwTok saltTok company email usecase
        days maxInst au ap .commercial).2 = cdb ∧
    (issue_regular_license H admin rdb now false tok rdays au ap).1 =
      (some ("REG-" ++ tok), "✅ Regular license issued: " ++ ("REG-" ++ tok)) ∧
    (issue_regular_license H admin rdb now false tok rdays au ap).2 = rdb ∧
    (revoke_license H admin cdb now false lid au ap).1 =
      (true, "✅ License " ++ lid ++ " revoked") ∧
    (revoke_license H admin cdb now false lid au ap).2 = cdb ∧
    (revoke_regular_license H admin rdb now false code au ap).1 =
      (true, "✅ Regular license " ++ code ++ " revoked") ∧
    (revoke_regular_license H admin rdb now false code au ap).2 = rdb := by
  have hnd : ¬ (days < 1 ∨ maxInst < 1) := by omega
  refine ⟨?_, ?_, ?_, ?_, ?_, ?_, ?_, ?_⟩ <;>
    simp [issue_license, issue_regular_license, revoke_license,
      revoke_regular_license, hau, hap, hadmin, strTruthy, hc, he, hu, hnd,
      hfoundC, hfoundR, save_store]

/-- C7 witness: all four operations against the fixture stores with the
write failing — success outcomes, unchanged stores. -/
theorem C7_failed_save_keeps_success_outcome_witness :
    (issue_license sampleH (some sampleAdmin) sampleDB 0 false "T" "P" "S" "Acme"
        "a@b.c" "trading" 365 1 (some "admin") (some "pw") .commercial).1 =
      (some ("AI-INV-" ++ "T"), some "P",
        "✅ License issued: " ++ ("AI-INV-" ++ "T")) ∧
    (issue_license sampleH (some sampleAdmin) sampleDB 0 false "T" "P" "S" "Acme"
        "a@b.c" "trading" 365 1 (some "admin") (some "pw") .commercial).2 =
      sampleDB ∧
    (issue_regular_license sampleH (some sampleAdmin) sampleRegularDB 0 false "Z" 30
        (some "admin") (some "pw")).1 =
      (some ("REG-" ++ "Z"), "✅ Regular license issued: " ++ ("REG-" ++ "Z")) ∧
    (issue_regular_license sampleH (some sampleAdmin) sampleRegularDB 0 false "Z" 30
        (some "admin") (some "pw")).2 = sampleRegularDB ∧
    (revoke_license sampleH (some sampleAdmin) sampleDB 0 false "AI-INV-X"
        (some "admin") (some "pw")).1 =
      (true, "✅ License " ++ "AI-INV-X" ++ " revoked") ∧
    (revoke_license sampleH (some sampleAdmin) sampleDB 0 false "AI-INV-X"
        (some "admin") (some "pw")).2 = sampleDB ∧
    (revoke_regular_license sampleH (some sampleAdmin) sampleRegularDB 0 false
        "REG-Y" (some "admin") (some "pw")).1 =
      (true, "✅ Regular license " ++ "REG-Y" ++ " revoked") ∧
    (revoke_regular_license sampleH (some sampleAdmin) sampleRegularDB 0 false
        "REG-Y" (some "admin") (some "pw")).2 = sampleRegularDB :=
  C7_failed_save_keeps_success_outcome sampleH (some sampleAdmin) sampleDB
    sampleRegularDB 0 "T" "P" "S" "Z" "AI-INV-X" "REG-Y" "Acme" "a@b.c" "trading"
    365 1 30 (some "admin") (some "pw") sampleRecord sampleRegularRecord
    (by decide) (by decide) (by decide) (by decide) (by decide) (by decide)
    (by decide) (by decide) (by decide) (by decide)
